import Mathlib

/-!
Verification of the Goldfish journaling-assistant pipeline.

This file gives a shallow embedding, in Lean 4, of the parts of the
repository that the specification talks about:

* `services/agent_service.py` — greeting detection, the message-processing
  pipeline `process_message`, prompt assembly and the generation call;
* `services/embedding_service.py` — `chunk_conversation`;
* `services/neo4j_service.py` — the graph write transaction
  `_insert_graph_tx` (entity / emotion / relationship inserts), the
  reconnect-and-retry wrapper of `insert_entities_and_relationships`, and
  the cold-graph branch of `get_user_graph_context`;
* `services/nlu_service.py` — `_extract_json_from_response` and the
  response handling of `extract_graph_entities`;
* `app.py` — the session-history truncation in the `chat` route.

Python strings are Lean `String`s (operations such as `strip`, `lower`,
`split`, substring containment and `title` are re-implemented below for
the ASCII texts the program manipulates); Python dictionaries become
structures with `Option` fields for keys that may be absent; code that
may raise becomes `Except String`-valued, and external collaborators
(vector store, LLM calls, graph driver) are oracle functions supplied in
an environment record.
-/

namespace Goldfish

/-! ## Python string primitives -/

/-- The six ASCII whitespace characters recognised by Python
`str.strip` / `str.split`. -/
def isPySpace (c : Char) : Bool :=
  c == ' ' || c == '\t' || c == '\n' || c == '\r' || c == '\x0b' || c == '\x0c'

/-- ASCII lower-casing of a single character (Python `str.lower` on the
ASCII texts the program manipulates). -/
def lowerChar (c : Char) : Char :=
  if 'A' ≤ c && c ≤ 'Z' then Char.ofNat (c.toNat + 32) else c

/-- ASCII upper-casing of a single character. -/
def upperChar (c : Char) : Char :=
  if 'a' ≤ c && c ≤ 'z' then Char.ofNat (c.toNat - 32) else c

/-- Python `str.lower`. -/
def pyLower (s : String) : String :=
  String.mk (s.toList.map lowerChar)

/-- Python `str.strip` (remove leading and trailing whitespace). -/
def pyStrip (s : String) : String :=
  String.mk (((s.toList.dropWhile isPySpace).reverse.dropWhile isPySpace).reverse)

/-- Helper for `pySplit`: accumulates the current word (reversed). -/
def pySplitAux : List Char → List Char → List String
  | [], acc => if acc.isEmpty then [] else [String.mk acc.reverse]
  | c :: cs, acc =>
    if isPySpace c then
      if acc.isEmpty then pySplitAux cs []
      else String.mk acc.reverse :: pySplitAux cs []
    else pySplitAux cs (c :: acc)

/-- Python `str.split()` with no argument: split on runs of whitespace,
dropping empty fields. -/
def pySplit (s : String) : List String :=
  pySplitAux s.toList []

/-- Does `pre` lead the list `l` (i.e. is it an initial segment)? -/
def leadsWith : List Char → List Char → Bool
  | [], _ => true
  | _ :: _, [] => false
  | a :: as, b :: bs => a == b && leadsWith as bs

/-- Python `needle in hay` substring containment on character lists. -/
def containsSub (needle : List Char) : List Char → Bool
  | [] => needle.isEmpty
  | c :: t => leadsWith needle (c :: t) || containsSub needle t

/-- Python `needle in hay` on strings. -/
def pyContains (hay needle : String) : Bool :=
  containsSub needle.toList hay.toList

/-- Python `str.title` restricted to what the fallback chunk formatting
needs: the first alphabetic character of every word is upper-cased,
subsequent alphabetic characters are lower-cased. -/
def pyTitleAux : List Char → Bool → List Char
  | [], _ => []
  | c :: cs, prevAlpha =>
    if c.isAlpha then
      (if prevAlpha then lowerChar c else upperChar c) :: pyTitleAux cs true
    else c :: pyTitleAux cs false

/-- Python `str.title`. -/
def pyTitle (s : String) : String :=
  String.mk (pyTitleAux s.toList false)

/-- Python `l[-n:]` on lists: the last `n` elements (the whole list when
it is shorter than `n`). -/
def takeLast (n : Nat) (l : List α) : List α :=
  l.drop (l.length - n)

/-- Python `s[:n]` on strings. -/
def strTake (n : Nat) (s : String) : String :=
  String.mk (s.toList.take n)

/-! ## Python values for dictionary fields

JSON-derived dictionary values that the graph write path inspects.  The
`intensity` field of an extracted emotion may be an integer, a string or
`None` (`Json null`); `pyIntOf` models Python `int(x)` on these shapes
(`None` raises `TypeError`, a non-numeral string raises `ValueError`). -/

inductive PyVal where
  | int (n : Int)
  | str (s : String)
  | none
deriving DecidableEq, Repr

/-- Parse a Python `int()` literal: optional surrounding whitespace, an
optional sign, then one or more decimal digits. -/
def parsePyIntDigits : List Char → Option Nat → Option Nat
  | [], acc => acc
  | c :: cs, acc =>
    if c.isDigit then
      parsePyIntDigits cs (some ((acc.getD 0) * 10 + (c.toNat - '0'.toNat)))
    else Option.none

/-- Python `int(s)` on a string. -/
def parsePyInt (s : String) : Option Int :=
  match (pyStrip s).toList with
  | '-' :: rest => (parsePyIntDigits rest Option.none).map (fun n => -(n : Int))
  | '+' :: rest => (parsePyIntDigits rest Option.none).map (fun n => (n : Int))
  | rest => (parsePyIntDigits rest Option.none).map (fun n => (n : Int))

/-- Python `int(x)` on the value shapes above; `Option.none` models a
raised `ValueError` / `TypeError`. -/
def pyIntOf : PyVal → Option Int
  | .int n => some n
  | .str s => parsePyInt s
  | .none => Option.none

/-- Python `str(x)` on the value shapes above. -/
def showPyVal : PyVal → String
  | .int n => toString n
  | .str s => s
  | .none => "None"

/-! ## `AgentService._is_greeting` (agent_service.py lines 131-151) -/

/-- The nine fixed greeting substrings of `_is_greeting`. -/
def greetingPatterns : List String :=
  ["hello", "hi", "hey", "greetings", "good morning",
   "good afternoon", "good evening", "sup", "what\x27s up"]

/-- `AgentService._is_greeting`: lower-case and strip the text; if it has
at most 3 whitespace-separated tokens, report whether any greeting
pattern occurs in it as a substring. -/
def isGreeting (text : String) : Bool :=
  let textLower := pyStrip (pyLower text)
  if (pySplit textLower).length ≤ 3 then
    greetingPatterns.any (fun p => pyContains textLower p)
  else false

/-! ## `EmbeddingService.chunk_conversation` (embedding_service.py lines 50-88) -/

/-- One conversation turn (a `{role, content}` dictionary). -/
structure Turn where
  role : String
  content : String
deriving DecidableEq, Repr

/-- The accumulation loop of `chunk_conversation`: returns the chunks
emitted so far together with the pending accumulated chunk text. -/
def chunkLoop : List Turn → String → List String × String
  | [], cur => ([], cur)
  | t :: ts, cur =>
    if t.role == "user" then
      let pre := if cur == "" then [] else [pyStrip cur]
      let (rest, fin) := chunkLoop ts ("User: " ++ t.content ++ "\n")
      (pre ++ rest, fin)
    else if t.role == "assistant" then
      chunkLoop ts (cur ++ ("Assistant: " ++ t.content ++ "\n"))
    else
      chunkLoop ts cur

/-- The chunks produced by the turn-based segmentation (loop plus the
final pending chunk), before the whole-conversation fallback. -/
def turnChunks (history : List Turn) : List String :=
  if pyStrip (chunkLoop history "").2 == "" then (chunkLoop history "").1
  else (chunkLoop history "").1 ++ [pyStrip (chunkLoop history "").2]

/-- The whole-conversation fallback chunk: every turn role-labelled with
`role.title()`, joined by newlines. -/
def fallbackChunk (history : List Turn) : String :=
  String.intercalate "\n"
    (history.map (fun t => pyTitle t.role ++ ": " ++ t.content))

/-- `EmbeddingService.chunk_conversation`. -/
def chunkConversation (history : List Turn) : List String :=
  if (turnChunks history).isEmpty then [fallbackChunk history]
  else turnChunks history

/-! ## Emotion intensity validation (neo4j_service.py lines 309-341) -/

/-- The stored intensity of one submitted emotion: `emotion.get("intensity", 3)`
followed by `max(1, min(5, int(intensity)))` with `ValueError` /
`TypeError` defaulting to 3.  The argument is `Option.none` when the
`"intensity"` key is absent. -/
def storedIntensity (v : Option PyVal) : Int :=
  match pyIntOf (v.getD (.int 3)) with
  | some n => max 1 (min 5 n)
  | Option.none => 3

/-! ## Session history truncation (`chat` route, app.py lines 306-312) -/

/-- One chat message (a `{role, content}` dictionary), as used by the
session history and the generation call. -/
structure Msg where
  role : String
  content : String
deriving DecidableEq, Repr

/-- The history update in the `chat` route: append the user message and
the assistant reply, then keep only the last 20 messages when the list
has grown beyond 20. -/
def chatUpdateHistory (hist : List Msg) (userMsg aiResp : String) : List Msg :=
  let h := hist ++ [⟨"user", userMsg⟩, ⟨"assistant", aiResp⟩]
  if h.length > 20 then takeLast 20 h else h

/-! ## NLU result and graph-write input shapes

The dictionaries produced by `NLUService.process_text` and consumed by
`AgentService.process_message` and `Neo4jService._insert_graph_tx`.
Optional fields model dictionary keys that may be absent. -/

/-- An extracted entity dictionary (`{"type": ..., "name": ...}`). -/
structure EntityIn where
  etype : Option String
  name : Option String
deriving DecidableEq, Repr

/-- An extracted relationship dictionary; `from`/`to` are the guide
format, `source`/`target` the backward-compatible one. -/
structure RelIn where
  fromName : Option String
  source : Option String
  toName : Option String
  target : Option String
  rtype : Option String
  fromType : Option String
  toType : Option String
deriving DecidableEq, Repr

/-- An extracted emotion dictionary (`{"type", "valence", "intensity"}`). -/
structure EmotionIn where
  etype : Option String
  valence : Option String
  intensity : Option PyVal
deriving DecidableEq, Repr

/-- An item of the `events` list: either a dictionary (read through
`event.get("name", "")`) or a non-dictionary turned into `str(event)`. -/
inductive EventIn where
  | dict (name : Option String)
  | raw (s : String)
deriving DecidableEq, Repr

/-- The dictionary returned by `NLUService.process_text`. -/
structure NluResult where
  entities : List EntityIn
  events : List EventIn
  emotions : List EmotionIn
  intent : String
  relationships : List RelIn
deriving DecidableEq, Repr

/-! ## The message-processing pipeline (`AgentService.process_message`)

External collaborators — the vector-RAG lookup, the NLU extraction, the
graph context query and the two LLM generation calls — are oracles in an
`Env` record; each is `Except String`-valued, the `error` case standing
for a raised Python exception. -/

/-- The fields of `rag_service.get_relevant_context`'s result that
`process_message` reads. -/
structure RagResult where
  success : Bool
  context : String
deriving DecidableEq, Repr

/-- The fields of `neo4j_service.get_user_graph_context`'s result that
`process_message` reads. -/
structure GraphCtxResult where
  success : Bool
  context : String
deriving DecidableEq, Repr

/-- The collaborator oracles of the pipeline. -/
structure Env where
  ragRetrieve : String → String → Nat → Except String RagResult
  nluProcess : String → Except String NluResult
  graphContext : String → String → Nat → Except String GraphCtxResult
  generate : List Msg → Except String String
  greetGenerate : List Msg → Except String String

/-- The `nlu_metadata` value of a `process_message` result: absent key
(failure dictionary), the empty dictionary (greeting shortcut), or a
full NLU result. -/
inductive MetaVal where
  | absent
  | emptyDict
  | result (r : NluResult)
deriving DecidableEq, Repr

/-- The dictionary returned by `process_message`; `Option.none` /
`MetaVal.absent` model keys missing from the returned dictionary. -/
structure PMResult where
  success : Bool
  response : String
  nluMetadata : MetaVal
  intent : Option String
  ragContextUsed : Option Bool
  graphContextUsed : Option Bool
  error : Option String
deriving DecidableEq, Repr

/-- The fixed default welcome string of `_generate_greeting_response`. -/
def defaultWelcome : String := "Welcome back. How have you been?"

/-- The canned apology returned when the pipeline catches an exception. -/
def cannedApology : String :=
  "I\x27m having trouble processing that right now. Could you try again?"

/-- The system prompt of the contextual-welcome LLM call in
`_generate_greeting_response`. -/
def greetingSystemPrompt : String :=
  "You are Goldfish, an empathetic journaling guide. Generate a brief, warm welcome message (under 20 words) that optionally references the user\x27s recent journal entries. Be professional yet caring. Examples: \x27Welcome back. How have you been?\x27 or \x27Welcome back. How are you feeling today?\x27"

/-- `AgentService._generate_greeting_response`: with non-empty context,
ask the generation capability for a contextual welcome; otherwise return
the fixed default welcome string. -/
def generateGreetingResponse (env : Env) (ragContext : String) :
    Except String String :=
  if ragContext != "" then do
    let messages : List Msg :=
      [⟨"system", greetingSystemPrompt⟩] ++
        (if ragContext != "" then
          [⟨"user", "Recent context from user\x27s journal: " ++
            strTake 300 ragContext ++ ". Generate a welcome message."⟩]
         else [])
    let r ← env.greetGenerate messages
    pure (pyStrip r)
  else
    pure defaultWelcome

/-- The fixed `intent → prompt fragment` table of `_get_intent_prompt`. -/
def intentPrompts : List (String × String) :=
  [("self-reflection", "With simple, gentle curiosity, help uncover patterns in their thinking. Use everyday language, and if they show clear insight, acknowledge their progress instead of probing."),
   ("planning", "Gently explore what might be driving their plans using accessible language. What feelings or worries could be influencing this decision?"),
   ("emotional-release", "This entry has strong feelings. With care, help them understand what\x27s behind these emotions using simple, gentle questions."),
   ("insight-generation", "Notice any patterns in what they\x27re sharing. Use straightforward language, and if they demonstrate awareness, celebrate that insight."),
   ("general", "With simple, caring curiosity, help identify what they\x27re feeling and thinking. Use easy-to-understand questions, and acknowledge when they show progress.")]

/-- `AgentService._get_intent_prompt`: table lookup with the `"general"`
entry as default. -/
def getIntentPrompt (intent : String) : String :=
  (((intentPrompts.find? (fun p => p.1 == intent)).map (fun p => p.2)).getD
    (((intentPrompts.find? (fun p => p.1 == "general")).map (fun p => p.2)).getD ""))

/-- The `**Context from Past Entries:**` block header added to the
system prompt when any retrieved context exists. -/
def contextBlockHeader : String := "\n\n**Context from Past Entries:**\n"

/-- The trailer of the context block. -/
def contextBlockFooter : String :=
  "\n\nUse this context subtly and naturally, but don\x27t over-reference it."

/-- The strict response-format reminder appended to every prompt. -/
def formatReminder : String :=
  "\n\n**CRITICAL: Response Format (MUST FOLLOW)**\n- Brief analytical insight: Maximum 2 clauses about patterns/meanings (use simple language)\n- ONE gentle, simple question OR acknowledge their progress if they show insight\n- Use everyday language—avoid complex psychological terms\n- Don\x27t stress the user with overly deep probes\n- Total response under 50 words\n- Professional, empathetic tone—like a caring interviewer who speaks simply"

/-- One entry of the `**Detected Emotions:**` annotation:
`f"{emotion_type} (intensity: {intensity})"` with `"medium"` when the
`"intensity"` key is absent. -/
def emotionDetail (e : EmotionIn) : String :=
  (e.etype.getD "") ++ " (intensity: " ++
    (match e.intensity with
     | some v => showPyVal v
     | Option.none => "medium") ++ ")"

/-- The emotion-analysis block of the enhanced prompt (detected emotions
when any were extracted, a generic emotional-sensing instruction
otherwise). -/
def emotionsBlock (emotions : List EmotionIn) : String :=
  match emotions with
  | [] =>
    "\n\n**Emotional Sensing:** Analyze the emotional tone and implicit feelings in the entry text, extracting hidden emotional patterns even if emotions aren\x27t explicitly stated."
  | _ =>
    "\n\n**Detected Emotions:** " ++
      String.intercalate ", " ((emotions.take 3).map emotionDetail) ++
      "\nAnalyze what these emotions reveal about underlying patterns, unstated needs, or hidden beliefs. Extract insights into root causes and what drives these feelings."

/-- The enhanced system prompt assembled by `_generate_response`
(lines 338-373 of `agent_service.py`). -/
def buildEnhancedPrompt (sysPrompt ragContext graphContext intentPrompt : String)
    (emotions : List EmotionIn) : String :=
  let parts :=
    (if ragContext != "" then [ragContext] else []) ++
    (if graphContext != "" then ["Graph context: " ++ graphContext] else [])
  let base :=
    if parts.isEmpty then sysPrompt
    else sysPrompt ++ contextBlockHeader ++ String.intercalate "\n" parts ++
      contextBlockFooter
  base ++ "\n\n**Current Task:** " ++ intentPrompt ++ formatReminder ++
    emotionsBlock emotions

/-- The message list passed to the generation call of
`_generate_response`: the system message, the last 10 history turns
(`conversation_history[-10:]`), then the current user message. -/
def buildMessages (sysPrompt userInput : String) (history : List Msg)
    (ragContext graphContext : String) (nlu : NluResult)
    (intentPrompt : String) : List Msg :=
  ⟨"system", buildEnhancedPrompt sysPrompt ragContext graphContext intentPrompt nlu.emotions⟩ ::
    (takeLast 10 history ++ [⟨"user", userInput⟩])

/-- `AgentService._generate_response`: build the message list, invoke
the generation capability, and strip the returned text. -/
def generateResponseE (env : Env) (sysPrompt userInput : String)
    (history : List Msg) (ragContext graphContext : String) (nlu : NluResult)
    (intentPrompt : String) : Except String String := do
  let r ← env.generate
    (buildMessages sysPrompt userInput history ragContext graphContext nlu intentPrompt)
  pure (pyStrip r)

/-- The graph-context loop of `process_message` step 3: for each of the
first 3 entities with a non-empty name, query the graph store and keep
the successful non-empty contexts, in order. -/
def collectGraphResults (env : Env) (userId : String) :
    List EntityIn → Except String (List String)
  | [] => pure []
  | e :: es =>
    if (e.name.getD "") == "" then collectGraphResults env userId es
    else do
      let r ← env.graphContext userId (e.name.getD "") 2
      let rest ← collectGraphResults env userId es
      if r.success && r.context != "" then pure (r.context :: rest)
      else pure rest

/-- The `graph_context` string of `process_message` step 3: empty when
no entities were extracted, otherwise the space-join of the first 2
collected contexts. -/
def graphContextOf (env : Env) (userId : String) (entities : List EntityIn) :
    Except String String :=
  if entities.isEmpty then pure ""
  else do
    let results ← collectGraphResults env userId (entities.take 3)
    if results.isEmpty then pure ""
    else pure (String.intercalate " " (results.take 2))

/-- The greeting shortcut of `process_message`: fetch RAG context,
produce a welcome, and return the result with empty NLU metadata and
intent `"greeting"`; no extraction, intent classification or graph
lookup happens here. -/
def greetingBranch (env : Env) (userId userInput : String) :
    Except String PMResult := do
  let ragResult ← env.ragRetrieve userId userInput 3
  let ragContext := ragResult.context
  let greeting ← generateGreetingResponse env ragContext
  pure { success := true, response := greeting, nluMetadata := .emptyDict,
         intent := some "greeting", ragContextUsed := some (ragContext != ""),
         graphContextUsed := some false, error := Option.none }

/-- The full pipeline of `process_message`: RAG retrieval, NLU
processing, GraphRAG query, intent routing, response generation. -/
def fullPipeline (env : Env) (sysPrompt userInput : String)
    (history : List Msg) (userId : String) : Except String PMResult := do
  let ragResult ← env.ragRetrieve userId userInput 3
  let ragContext := ragResult.context
  let nlu ← env.nluProcess userInput
  let graphCtx ← graphContextOf env userId nlu.entities
  let intentPrompt := getIntentPrompt nlu.intent
  let response ←
    generateResponseE env sysPrompt userInput history ragContext graphCtx nlu intentPrompt
  pure { success := true, response := response, nluMetadata := .result nlu,
         intent := some nlu.intent, ragContextUsed := some (ragContext != ""),
         graphContextUsed := some (graphCtx != ""), error := Option.none }

/-- The body of `AgentService.process_message` (inside the `try`):
greeting shortcut, or the full pipeline.  A raised exception is the
`Except.error` case. -/
def processMessageE (env : Env) (sysPrompt userInput : String)
    (history : List Msg) (userId : String) : Except String PMResult :=
  if isGreeting userInput then greetingBranch env userId userInput
  else fullPipeline env sysPrompt userInput history userId

/-- The failure dictionary built by `process_message`'s `except` clause. -/
def failureResult (e : String) : PMResult :=
  { success := false, response := cannedApology, nluMetadata := .absent,
    intent := Option.none, ragContextUsed := Option.none,
    graphContextUsed := Option.none, error := some e }

/-- `AgentService.process_message`: the body with its top-level
`try/except` — any raised exception becomes the canned failure
dictionary. -/
def processMessage (env : Env) (sysPrompt userInput : String)
    (history : List Msg) (userId : String) : PMResult :=
  match processMessageE env sysPrompt userInput history userId with
  | .ok r => r
  | .error e => failureResult e

/-! ## The graph write transaction (`Neo4jService._insert_graph_tx`) -/

/-- Python `str.upper` (ASCII). -/
def pyUpper (s : String) : String :=
  String.mk (s.toList.map upperChar)

/-- The `entity_type_map` of `_insert_graph_tx`: extraction entity types
to Neo4j labels (`TOPIC`, like any unknown type, maps to no label). -/
def entityTypeMap (t : String) : Option String :=
  if t == "PERSON" then some "Person"
  else if t == "ORG" then some "Organization"
  else if t == "EVENT" then some "Event"
  else if t == "PLACE" then some "Place"
  else if t == "DATE" then some "Date"
  else Option.none

/-- Add a name to a label's group, preserving first-insertion order of
labels and skipping duplicate names within the same label. -/
def addEntityToGroups (groups : List (String × List String)) (label name : String) :
    List (String × List String) :=
  match groups with
  | [] => [(label, [name])]
  | (l, ns) :: rest =>
    if l == label then
      if ns.contains name then (l, ns) :: rest else (l, ns ++ [name]) :: rest
    else (l, ns) :: addEntityToGroups rest label name

/-- The `entities_by_type` grouping of `_insert_graph_tx`: typed
entities with non-empty stripped names grouped by mapped label, then
the `events` list merged into the `Event` group. -/
def entitiesByType (entities : List EntityIn) (events : List EventIn) :
    List (String × List String) :=
  let g := entities.foldl (fun groups entity =>
    let etype := pyUpper (entity.etype.getD "")
    let ename := pyStrip (entity.name.getD "")
    if ename == "" then groups
    else match entityTypeMap etype with
      | some label => addEntityToGroups groups label ename
      | Option.none => groups) []
  events.foldl (fun groups ev =>
    let name := match ev with
      | .dict n => pyStrip (n.getD "")
      | .raw s => pyStrip s
    if name == "" then groups else addEntityToGroups groups "Event" name) g

/-- One entity `MERGE` + `MENTIONS` statement executed by the
transaction. -/
structure EntityOp where
  label : String
  nameLower : String
  originalName : String
deriving DecidableEq, Repr

/-- The entity insert statements of the transaction, in execution
order. -/
def entityOpsOf (entities : List EntityIn) (events : List EventIn) : List EntityOp :=
  ((entitiesByType entities events).map (fun g =>
    g.2.filterMap (fun n =>
      if n == "" then Option.none
      else some { label := g.1, nameLower := pyStrip (pyLower n), originalName := n }))).flatten

/-- One emotion `MERGE` + `FEELS` statement executed by the
transaction. -/
structure EmotionOp where
  nameLower : String
  originalName : String
  valence : String
  intensity : Int
deriving DecidableEq, Repr

/-- The emotion insert statements of the transaction: emotions with a
non-empty stripped type, with valence defaulted to `"neutral"` and
intensity validated by `storedIntensity`. -/
def emotionOpsOf (emotions : List EmotionIn) : List EmotionOp :=
  emotions.filterMap (fun e =>
    let etype := pyStrip (e.etype.getD "")
    if etype == "" then Option.none
    else some { nameLower := pyStrip (pyLower etype), originalName := etype,
                valence := e.valence.getD "neutral",
                intensity := storedIntensity e.intensity })

/-- The `type_label_map` used to resolve relationship endpoint types. -/
def typeLabelMap (t : String) : Option String :=
  if t == "person" then some "Person"
  else if t == "organization" then some "Organization"
  else if t == "org" then some "Organization"
  else if t == "event" then some "Event"
  else if t == "place" then some "Place"
  else if t == "date" then some "Date"
  else if t == "user" then some "User"
  else Option.none

/-- Python `A or B or ""` on two optional strings (empty strings are
falsy). -/
def pyOrOpt (a b : Option String) : String :=
  match a with
  | some s => if s == "" then (match b with | some t => t | Option.none => "") else s
  | Option.none => match b with | some t => t | Option.none => ""

/-- Python `A or d` on an optional string with a default. -/
def pyOrDefault (a : Option String) (d : String) : String :=
  match a with
  | some s => if s == "" then d else s
  | Option.none => d

/-- The `entity_name_to_label` map of `_insert_graph_tx`: lower-cased
stripped entity names to mapped labels; later entries overwrite (last
assignment wins, as in a Python dictionary). -/
def entityNameToLabel (entities : List EntityIn) : List (String × String) :=
  entities.foldl (fun m ent =>
    let n := pyLower (pyStrip (ent.name.getD ""))
    let t := pyUpper (pyStrip (ent.etype.getD ""))
    if n != "" && t != "" then
      match entityTypeMap t with
      | some label => m ++ [(n, label)]
      | Option.none => m
    else m) []

/-- Look up the last binding of a key in an association list (Python
dictionary assignment semantics). -/
def lookupLast (m : List (String × String)) (k : String) : Option String :=
  (m.reverse.find? (fun p => p.1 == k)).map (fun p => p.2)

/-- One `RELATES_TO` edge upsert attempted by the transaction. -/
structure RelOp where
  fromLabel : String
  fromLower : String
  toLabel : String
  toLower : String
  rtype : String
deriving DecidableEq, Repr

/-- Resolve one relationship dictionary as `_insert_graph_tx` does:
pick `from`/`source` and `to`/`target` names, map the explicit
`from_type`/`to_type` through `type_label_map`, fall back to the
case-insensitive entity-name map, and skip (`Option.none`) when either
endpoint name is empty or either endpoint label stays unresolved. -/
def resolveRel (entities : List EntityIn) (rel : RelIn) : Option RelOp :=
  let source := pyStrip (pyOrOpt rel.fromName rel.source)
  let target := pyStrip (pyOrOpt rel.toName rel.target)
  let rtype := pyStrip (pyOrDefault rel.rtype "related_to")
  let fromTypeRaw := pyLower (pyStrip (pyOrOpt rel.fromType Option.none))
  let toTypeRaw := pyLower (pyStrip (pyOrOpt rel.toType Option.none))
  if source == "" || target == "" then Option.none
  else
    let sourceLower := pyStrip (pyLower source)
    let targetLower := pyStrip (pyLower target)
    let fromLabel :=
      match typeLabelMap fromTypeRaw with
      | some l => some l
      | Option.none => lookupLast (entityNameToLabel entities) sourceLower
    let toLabel :=
      match typeLabelMap toTypeRaw with
      | some l => some l
      | Option.none => lookupLast (entityNameToLabel entities) targetLower
    match fromLabel, toLabel with
    | some fl, some tl =>
      some { fromLabel := fl, fromLower := sourceLower,
             toLabel := tl, toLower := targetLower, rtype := rtype }
    | _, _ => Option.none

/-- The observable effect of one `_insert_graph_tx` run: the statements
executed and the result dictionary (`success` with the three counts). -/
structure TxEffect where
  entityOps : List EntityOp
  emotionOps : List EmotionOp
  relOps : List RelOp
  createdRels : List RelOp
  success : Bool
  entitiesInserted : Nat
  emotionsInserted : Nat
  relationshipsInserted : Nat
deriving DecidableEq, Repr

/-- `Neo4jService._insert_graph_tx` over a pure graph model: `pre` is
the set of `(label, name)` nodes already present in the graph before
the transaction.  A resolved relationship's `MERGE` creates an edge
(and is counted) exactly when its two `MATCH`ed nodes exist — either
pre-existing or inserted earlier in this same transaction. -/
def insertGraphTx (entities : List EntityIn) (relationships : List RelIn)
    (emotions : List EmotionIn) (events : List EventIn)
    (pre : List (String × String)) : TxEffect :=
  let eOps := entityOpsOf entities events
  let emOps := emotionOpsOf emotions
  let rOps := relationships.filterMap (resolveRel entities)
  let nodes := pre ++ eOps.map (fun o => (o.label, o.nameLower)) ++
    emOps.map (fun o => ("Emotion", o.nameLower))
  let created := rOps.filter (fun r =>
    nodes.contains (r.fromLabel, r.fromLower) && nodes.contains (r.toLabel, r.toLower))
  { entityOps := eOps, emotionOps := emOps, relOps := rOps, createdRels := created,
    success := true, entitiesInserted := eOps.length,
    emotionsInserted := emOps.length, relationshipsInserted := created.length }

/-! ## Reconnect-and-retry (`insert_entities_and_relationships`,
`get_user_graph_context` — neo4j_service.py lines 193-214, 905-925)

Each element of the script is one attempt to run the operation against
the backend: either it returns a result, or it raises with a message;
`reconnectOk` says whether the `_initialize_driver()` reconnection
performed after a connection error would succeed. -/

/-- The structured result of `insert_entities_and_relationships`. -/
structure InsertResult where
  success : Bool
  error : Option String
deriving DecidableEq, Repr

/-- One backend attempt: a returned result, or a raised exception
together with the outcome reconnection would have. -/
inductive RunAttempt where
  | ok (r : InsertResult)
  | raise (msg : String) (reconnectOk : Bool)
deriving DecidableEq, Repr

/-- The connection-error test of the `except` clauses:
`"defunct connection" in error_msg or "connection" in error_msg.lower()`. -/
def isConnErr (msg : String) : Bool :=
  pyContains msg "defunct connection" || pyContains (pyLower msg) "connection"

/-- `insert_entities_and_relationships` (and, identically structured,
`get_user_graph_context`'s error handling): run the operation; on a
connection error reconnect, and if reconnection succeeds call itself
again on the rest of the script; any persistent failure becomes a
structured `success := false` dictionary.  An exhausted script stands
for an absent driver (`"Neo4j not configured"`). -/
def insertEAR : List RunAttempt → InsertResult
  | [] => { success := false, error := some "Neo4j not configured" }
  | .ok r :: _ => r
  | .raise msg rc :: rest =>
    if isConnErr msg && rc then insertEAR rest
    else { success := false, error := some msg }

/-- How many times `insertEAR` re-invokes the operation after the
original attempt (the number of retries actually performed). -/
def insertRetryCount : List RunAttempt → Nat
  | [] => 0
  | .ok _ :: _ => 0
  | .raise msg rc :: rest =>
    if isConnErr msg && rc then 1 + insertRetryCount rest else 0

/-! ## `Neo4jService.get_user_graph_context` (lines 504-925)

The graph database is modelled as lists of `Entry` nodes, typed entity
nodes, `MENTIONS` / `FEELS` links and `RELATES_TO` edges; the function
below models the connected-driver path of the query. -/

/-- An `Entry` node of the graph.  `tsText` is the string form of the
node's `timestamp` property (`str(timestamp)`); `timestamp` is the
recency key used by `ORDER BY timestamp DESC`. -/
structure EntryNode where
  id : String
  userId : String
  summary : String
  timestamp : Nat
  tsText : String
deriving DecidableEq, Repr

/-- The graph database contents. -/
structure GraphDB where
  entryNodes : List EntryNode
  entityNodes : List (String × String)
  mentions : List (String × String)
  feels : List (String × String)
  relates : List (String × String)
deriving Repr

/-- One element of the `entries` list of the query result. -/
structure CtxEntry where
  entryId : String
  summary : String
  emotions : List String
  entities : List String
  types : List String
  timestamp : Option String
deriving DecidableEq, Repr

/-- The dictionary returned by `get_user_graph_context`
(`entity_count` is absent from the cold-graph early return). -/
structure CtxResult where
  success : Bool
  context : String
  entries : List CtxEntry
  error : Option String
  entityCount : Option Nat
deriving DecidableEq, Repr

/-- The entity labels eligible for direct query matching. -/
def matchableLabels : List String :=
  ["Person", "Organization", "Event", "Place", "Emotion"]

/-- One raw record of the main GraphRAG query. -/
structure RawRecord where
  entryId : String
  summary : String
  emotions : List String
  entities : List String
  types : List String
  timestamp : Nat
  tsText : String
deriving DecidableEq, Repr

/-- Steps 1-2 of the GraphRAG query: names of matching entities plus
their one-hop `RELATES_TO` neighbours in both directions. -/
def relevantNames (db : GraphDB) (queryLower : String) : List String :=
  let direct := (db.entityNodes.filter (fun p =>
    matchableLabels.contains p.1 && containsSub queryLower.toList p.2.toList)).map
    (fun p => p.2)
  let outbound := (db.relates.filter (fun r => direct.contains r.1)).map (fun r => r.2)
  let inbound := (db.relates.filter (fun r => direct.contains r.2)).map (fun r => r.1)
  (direct ++ outbound ++ inbound).dedup

/-- Step 3 of the GraphRAG query: the raw records for the user's
entries that mention a relevant entity or feel a matching emotion,
ordered by recency descending and capped at `limit`. -/
def graphQueryRecords (db : GraphDB) (userId queryLower : String) (limit : Nat) :
    List RawRecord :=
  let relevant := relevantNames db queryLower
  if relevant.isEmpty then []
  else
    let rows := (db.entryNodes.filter (fun e => e.userId == userId)).filterMap
      (fun e =>
        let mentioned := (db.mentions.filter (fun m =>
          m.1 == e.id && relevant.contains m.2)).map (fun m => m.2)
        let entityNamesList := mentioned.dedup
        let typesList := (mentioned.filterMap
          (fun n => (db.entityNodes.find? (fun p => p.2 == n)).map (fun p => p.1))).dedup
        let emotionsList := ((db.feels.filter (fun f =>
          f.1 == e.id && (relevant.contains f.2 ||
            containsSub queryLower.toList f.2.toList))).map (fun f => f.2)).dedup
        if entityNamesList.isEmpty && emotionsList.isEmpty then Option.none
        else some { entryId := e.id, summary := e.summary,
                    emotions := emotionsList, entities := entityNamesList,
                    types := typesList, timestamp := e.timestamp,
                    tsText := e.tsText })
    ((rows.mergeSort (fun a b => decide (b.timestamp ≤ a.timestamp))).take limit)

/-- `", ".join(xs[:2])` with the `" and N more"` suffix used by the
sentence builder. -/
def capTwo (xs : List String) : String :=
  String.intercalate ", " (xs.take 2) ++
    (if xs.length > 2 then " and " ++ toString (xs.length - 2) ++ " more" else "")

/-- The per-entry context sentence of the processing loop. -/
def entrySentence (r : RawRecord) : Option String :=
  let tsStr := if r.tsText != "" then strTake 10 r.tsText else ""
  let parts₁ := if tsStr != "" then ["On " ++ tsStr] else []
  let parts₂ := parts₁ ++
    (if r.emotions.isEmpty then []
     else [(if tsStr != "" then "you mentioned feeling " else "You mentioned feeling ") ++
       capTwo r.emotions])
  let pairs := r.entities.zip r.types
  let people := (pairs.filter (fun p => p.2 == "Person")).map (fun p => p.1)
  let orgs := (pairs.filter (fun p => p.2 == "Organization")).map (fun p => p.1)
  let places := (pairs.filter (fun p => p.2 == "Place")).map (fun p => p.1)
  let entityParts :=
    (if people.isEmpty then [] else [capTwo people]) ++
    (if orgs.isEmpty then [] else [capTwo orgs]) ++
    (if places.isEmpty then [] else [capTwo places])
  let parts := parts₂ ++
    (if r.entities.isEmpty || entityParts.isEmpty then []
     else
       let entityStr := String.intercalate ", " entityParts
       if ¬ r.emotions.isEmpty then ["about " ++ entityStr]
       else if tsStr != "" then ["you mentioned " ++ entityStr]
       else ["You mentioned " ++ entityStr])
  if parts.isEmpty then Option.none
  else some (String.intercalate " " parts ++ ".")

/-- The `entries` element built for one raw record. -/
def entryInfo (r : RawRecord) : CtxEntry :=
  let tsStr := if r.tsText != "" then strTake 10 r.tsText else ""
  { entryId := r.entryId, summary := r.summary, emotions := r.emotions,
    entities := r.entities, types := r.types,
    timestamp := if tsStr != "" then some tsStr else Option.none }

/-- The final combined context string of the processing loop. -/
def combineSentences (sentences : List String) : String :=
  match sentences with
  | [] => ""
  | [s] => s
  | [s₁, s₂] => s₁ ++ " " ++ s₂
  | s₁ :: s₂ :: rest =>
    s₁ ++ " Also, " ++ s₂ ++ " And " ++ toString rest.length ++
      " more related entry" ++ (if rest.length > 1 then "s" else "") ++ "."

/-- `Neo4jService.get_user_graph_context` on the connected-driver path:
if the user has no `Entry` nodes, return success with empty context and
entries; otherwise run the GraphRAG query and build the context. -/
def getUserGraphContext (db : GraphDB) (userId query : String) (limit : Nat) :
    CtxResult :=
  if (db.entryNodes.filter (fun e => e.userId == userId)).length == 0 then
    { success := true, context := "", entries := [],
      error := Option.none, entityCount := Option.none }
  else
    let queryLower := strTake 50 (pyStrip (pyLower query))
    let records := (graphQueryRecords db userId queryLower limit).filter
      (fun r => r.entryId != "")
    let sentences := records.filterMap entrySentence
    let entries := records.map entryInfo
    { success := true, context := combineSentences sentences, entries := entries,
      error := Option.none,
      entityCount := some ((entries.map (fun e => e.entities.length)).sum) }

/-! ## JSON parsing (`json.loads`) and
`NLUService._extract_json_from_response` / `extract_graph_entities`

A JSON value; numbers keep their raw lexeme (their numeric value plays
no role in the extraction handling). -/

inductive Json where
  | null
  | bool (b : Bool)
  | num (raw : String)
  | str (s : String)
  | arr (xs : List Json)
  | obj (kvs : List (String × Json))

/-- JSON inter-token whitespace. -/
def isJsonWs (c : Char) : Bool :=
  c == ' ' || c == '\t' || c == '\n' || c == '\r'

/-- Skip JSON whitespace. -/
def skipJsonWs (cs : List Char) : List Char :=
  cs.dropWhile isJsonWs

/-- Hexadecimal digit value (code points 0-9, a-f, A-F). -/
def hexDigitVal (c : Char) : Option Nat :=
  let n := c.toNat
  if 48 ≤ n && n ≤ 57 then some (n - 48)
  else if 97 ≤ n && n ≤ 102 then some (n - 87)
  else if 65 ≤ n && n ≤ 70 then some (n - 55)
  else Option.none

/-- Parse the body of a JSON string after the opening quote; returns
the decoded content and the remaining input after the closing quote.
Unescaped control characters are rejected (strict mode). -/
def parseStringBody : Nat → List Char → Option (List Char × List Char)
  | 0, _ => Option.none
  | _, [] => Option.none
  | fuel + 1, c :: rest =>
    if c == '"' then some ([], rest)
    else if c == '\\' then
      match rest with
      | [] => Option.none
      | e :: rest₂ =>
        let decoded : Option (Char × List Char) :=
          if e == '"' then some ('"', rest₂)
          else if e == '\\' then some ('\\', rest₂)
          else if e == '/' then some ('/', rest₂)
          else if e == 'b' then some ('\x08', rest₂)
          else if e == 'f' then some ('\x0c', rest₂)
          else if e == 'n' then some ('\n', rest₂)
          else if e == 'r' then some ('\r', rest₂)
          else if e == 't' then some ('\t', rest₂)
          else if e == 'u' then
            match rest₂ with
            | h₁ :: h₂ :: h₃ :: h₄ :: rest₃ =>
              match hexDigitVal h₁, hexDigitVal h₂, hexDigitVal h₃, hexDigitVal h₄ with
              | some a, some b, some c, some d =>
                some (Char.ofNat (a * 4096 + b * 256 + c * 16 + d), rest₃)
              | _, _, _, _ => Option.none
            | _ => Option.none
          else Option.none
        match decoded with
        | some (ch, rest₃) =>
          (parseStringBody fuel rest₃).map (fun p => (ch :: p.1, p.2))
        | Option.none => Option.none
    else if c.toNat < 32 then Option.none
    else (parseStringBody fuel rest).map (fun p => (c :: p.1, p.2))

/-- Maximal-munch JSON number lexeme (`-?(0|[1-9][0-9]*)(.[0-9]+)?([eE][+-]?[0-9]+)?`);
returns the lexeme and the remaining input. -/
def parseNumberLex (cs : List Char) : Option (List Char × List Char) :=
  let (sign, cs₁) :=
    match cs with
    | '-' :: rest => (['-'], rest)
    | _ => (([] : List Char), cs)
  let intPart : Option (List Char × List Char) :=
    match cs₁ with
    | '0' :: rest => some (['0'], rest)
    | c :: _ =>
      if c.isDigit then some (cs₁.takeWhile Char.isDigit, cs₁.dropWhile Char.isDigit)
      else Option.none
    | [] => Option.none
  match intPart with
  | Option.none => Option.none
  | some (ip, cs₂) =>
    let (fp, cs₃) :=
      match cs₂ with
      | '.' :: d :: _ =>
        if d.isDigit then
          ('.' :: (cs₂.drop 1).takeWhile Char.isDigit, (cs₂.drop 1).dropWhile Char.isDigit)
        else (([] : List Char), cs₂)
      | _ => (([] : List Char), cs₂)
    let (ep, cs₄) :=
      match cs₃ with
      | e :: rest =>
        if e == 'e' || e == 'E' then
          match rest with
          | s :: d :: _ =>
            if (s == '+' || s == '-') && d.isDigit then
              (e :: s :: (rest.drop 1).takeWhile Char.isDigit,
               (rest.drop 1).dropWhile Char.isDigit)
            else if s.isDigit then
              (e :: rest.takeWhile Char.isDigit, rest.dropWhile Char.isDigit)
            else (([] : List Char), cs₃)
          | [s] =>
            if s.isDigit then (e :: [s], []) else (([] : List Char), cs₃)
          | [] => (([] : List Char), cs₃)
        else (([] : List Char), cs₃)
      | [] => (([] : List Char), cs₃)
    some (sign ++ ip ++ fp ++ ep, cs₄)

/-- Tail of a JSON array after its first element: `, value`* `]`. -/
def parseArrItems (pv : List Char → Option (Json × List Char)) :
    Nat → List Json → List Char → Option (List Json × List Char)
  | 0, _, _ => Option.none
  | fuel + 1, acc, cs =>
    match skipJsonWs cs with
    | ']' :: rest => some (acc.reverse, rest)
    | ',' :: rest =>
      match pv (skipJsonWs rest) with
      | some (v, r) => parseArrItems pv fuel (v :: acc) r
      | Option.none => Option.none
    | _ => Option.none

/-- Tail of a JSON object after its first member: `, "key": value`* `}`. -/
def parseObjItems (pv : List Char → Option (Json × List Char)) :
    Nat → List (String × Json) → List Char → Option (List (String × Json) × List Char)
  | 0, _, _ => Option.none
  | fuel + 1, acc, cs =>
    match skipJsonWs cs with
    | '}' :: rest => some (acc.reverse, rest)
    | ',' :: rest =>
      match skipJsonWs rest with
      | '"' :: rest₂ =>
        match parseStringBody (rest₂.length + 1) rest₂ with
        | some (k, r₁) =>
          match skipJsonWs r₁ with
          | ':' :: r₂ =>
            match pv (skipJsonWs r₂) with
            | some (v, r₃) => parseObjItems pv fuel ((String.mk k, v) :: acc) r₃
            | Option.none => Option.none
          | _ => Option.none
        | Option.none => Option.none
      | _ => Option.none
    | _ => Option.none

/-- Parse one JSON value (strict `json.loads` grammar, plus the
`NaN` / `Infinity` / `-Infinity` constants the Python decoder accepts
by default). -/
def parseValue : Nat → List Char → Option (Json × List Char)
  | 0, _ => Option.none
  | fuel + 1, cs =>
    match cs with
    | [] => Option.none
    | '"' :: rest =>
      (parseStringBody (rest.length + 1) rest).map
        (fun p => (Json.str (String.mk p.1), p.2))
    | '{' :: rest =>
      (match skipJsonWs rest with
       | '}' :: rest₂ => some (Json.obj [], rest₂)
       | '"' :: rest₂ =>
         match parseStringBody (rest₂.length + 1) rest₂ with
         | some (k, r₁) =>
           (match skipJsonWs r₁ with
            | ':' :: r₂ =>
              (match parseValue fuel (skipJsonWs r₂) with
               | some (v, r₃) =>
                 (parseObjItems (parseValue fuel) (r₃.length + 1)
                   [(String.mk k, v)] r₃).map (fun p => (Json.obj p.1, p.2))
               | Option.none => Option.none)
            | _ => Option.none)
         | Option.none => Option.none
       | _ => Option.none)
    | '[' :: rest =>
      (match skipJsonWs rest with
       | ']' :: rest₂ => some (Json.arr [], rest₂)
       | cs₂ =>
         match parseValue fuel cs₂ with
         | some (v, r₁) =>
           (parseArrItems (parseValue fuel) (r₁.length + 1) [v] r₁).map
             (fun p => (Json.arr p.1, p.2))
         | Option.none => Option.none)
    | 't' :: rest =>
      if leadsWith ['r', 'u', 'e'] rest then some (Json.bool true, rest.drop 3)
      else Option.none
    | 'f' :: rest =>
      if leadsWith ['a', 'l', 's', 'e'] rest then some (Json.bool false, rest.drop 4)
      else Option.none
    | 'n' :: rest =>
      if leadsWith ['u', 'l', 'l'] rest then some (Json.null, rest.drop 3)
      else Option.none
    | 'N' :: rest =>
      if leadsWith ['a', 'N'] rest then some (Json.num "NaN", rest.drop 2)
      else Option.none
    | 'I' :: rest =>
      if leadsWith "nfinity".toList rest then some (Json.num "Infinity", rest.drop 7)
      else Option.none
    | '-' :: 'I' :: rest =>
      if leadsWith "nfinity".toList rest then some (Json.num "-Infinity", rest.drop 7)
      else Option.none
    | c :: _ =>
      if c == '-' || c.isDigit then
        (parseNumberLex cs).map (fun p => (Json.num (String.mk p.1), p.2))
      else Option.none

/-- Python `json.loads`: parse one value with surrounding whitespace
and require the whole input to be consumed; `Option.none` models a
raised `JSONDecodeError`. -/
def jsonLoads (s : String) : Option Json :=
  let cs := skipJsonWs s.toList
  match parseValue (cs.length + 1) cs with
  | some (j, rest) => if (skipJsonWs rest).isEmpty then some j else Option.none
  | Option.none => Option.none

/-- The triple-backtick markdown fence marker. -/
def fenceMarker : List Char := "\x60\x60\x60".toList

/-- Split a list at the first occurrence of `needle`: the part before
it and the part after it. -/
def splitAtSub (needle : List Char) : List Char → Option (List Char × List Char)
  | [] => if needle.isEmpty then some ([], []) else Option.none
  | c :: t =>
    if leadsWith needle (c :: t) then some ([], (c :: t).drop needle.length)
    else (splitAtSub needle t).map (fun p => (c :: p.1, p.2))

/-- The content captured by the code-fence regular expression of
`_extract_json_from_response`: the text between the first fence pair,
with a literal `json` tag after the opening fence skipped.  (The
captured group is stripped by the caller.) -/
def fenceContent (text : List Char) : Option (List Char) :=
  match splitAtSub fenceMarker text with
  | Option.none => Option.none
  | some (_, after₁) =>
    let after₂ := if leadsWith "json".toList after₁ then after₁.drop 4 else after₁
    match splitAtSub fenceMarker after₂ with
    | Option.none => Option.none
    | some (content, _) => some content

/-- The character scan of `find_json_start_end`, starting at the first
occurrence of `startC`: depth counting with in-string and escape
flags; returns `text[start:end]` when the brackets balance. -/
def scanBalanced (startC endC : Char) :
    List Char → Nat → Bool → Bool → List Char → Option (List Char)
  | [], _, _, _, _ => Option.none
  | c :: rest, depth, inStr, esc, acc =>
    if esc then scanBalanced startC endC rest depth inStr false (c :: acc)
    else if c == '\\' then scanBalanced startC endC rest depth inStr true (c :: acc)
    else if c == '"' then scanBalanced startC endC rest depth (!inStr) false (c :: acc)
    else if !inStr && c == startC then
      scanBalanced startC endC rest (depth + 1) inStr false (c :: acc)
    else if !inStr && c == endC then
      if depth == 1 then some (c :: acc).reverse
      else scanBalanced startC endC rest (depth - 1) inStr false (c :: acc)
    else scanBalanced startC endC rest depth inStr false (c :: acc)

/-- `find_json_start_end` of `_extract_json_from_response`. -/
def findBalanced (startC endC : Char) (cs : List Char) : Option (List Char) :=
  let tail := cs.dropWhile (fun c => c != startC)
  if tail.isEmpty then Option.none
  else scanBalanced startC endC tail 0 false false []

/-- Strategy 1 of `_extract_json_from_response`: the stripped fenced
block, kept when it parses as JSON. -/
def fenceTryOf (text : String) : Option String :=
  match fenceContent text.toList with
  | some c =>
    let js := pyStrip (String.mk c)
    if (jsonLoads js).isSome then some js else Option.none
  | Option.none => Option.none

/-- Strategy 2 of `_extract_json_from_response`: the stripped balanced
object-boundary candidate, kept when it parses as a JSON object. -/
def objTryOf (text : String) : Option String :=
  match findBalanced '{' '}' text.toList with
  | some sub =>
    let js := pyStrip (String.mk sub)
    match jsonLoads js with
    | some (Json.obj _) => some js
    | _ => Option.none
  | Option.none => Option.none

/-- Strategy 3 of `_extract_json_from_response`: the stripped balanced
array-boundary candidate, kept when it parses as JSON. -/
def arrTryOf (text : String) : Option String :=
  match findBalanced '[' ']' text.toList with
  | some sub =>
    let js := pyStrip (String.mk sub)
    if (jsonLoads js).isSome then some js else Option.none
  | Option.none => Option.none

/-- `NLUService._extract_json_from_response`: strip the text; try the
fenced block; then the balanced object-boundary candidate; then the
balanced array-boundary candidate; finally fall back to the stripped
text itself. -/
def extractJsonFromResponse (responseText : String) : String :=
  let text := pyStrip responseText
  match fenceTryOf text with
  | some js => js
  | Option.none =>
    match objTryOf text with
    | some js => js
    | Option.none =>
      match arrTryOf text with
      | some js => js
      | Option.none => text

/-- The structured extraction result of `extract_graph_entities`; each
field holds the raw JSON value of the corresponding key (defaulting to
an empty JSON array, as `data.get(key, [])` does). -/
structure GraphData where
  people : Json
  organizations : Json
  events : Json
  places : Json
  dates : Json
  topics : Json
  emotions : Json
  relationships : Json

/-- The all-empty structure returned on every failure path. -/
def emptyGraphData : GraphData :=
  { people := .arr [], organizations := .arr [], events := .arr [],
    places := .arr [], dates := .arr [], topics := .arr [],
    emotions := .arr [], relationships := .arr [] }

/-- Python `data.get(key, [])` on a parsed JSON object (duplicate keys:
last binding wins). -/
def objGet (kvs : List (String × Json)) (k : String) : Json :=
  ((kvs.reverse.find? (fun p => p.1 == k)).map (fun p => p.2)).getD (.arr [])

/-- Assemble a `GraphData` from a parsed JSON object. -/
def graphDataOfObj (kvs : List (String × Json)) : GraphData :=
  { people := objGet kvs "people", organizations := objGet kvs "organizations",
    events := objGet kvs "events", places := objGet kvs "places",
    dates := objGet kvs "dates", topics := objGet kvs "topics",
    emotions := objGet kvs "emotions", relationships := objGet kvs "relationships" }

/-- The response handling of `NLUService.extract_graph_entities` after
the LLM call, taking the (already stripped) `response_text`: extract a
JSON candidate, parse it; a list is replaced by its first element when
that is a dictionary; any parse failure or non-dictionary shape yields
the all-empty structure. -/
def extractGraphEntitiesFromResponse (responseText : String) : GraphData :=
  let jsonStr := extractJsonFromResponse responseText
  match jsonLoads jsonStr with
  | Option.none => emptyGraphData
  | some j =>
    match j with
    | .arr xs =>
      match xs with
      | .obj kvs :: _ => graphDataOfObj kvs
      | _ => emptyGraphData
    | .obj kvs => graphDataOfObj kvs
    | _ => emptyGraphData

/-- The fenced-block strategy fails on this content. -/
def fenceFails (content : String) : Bool :=
  match fenceContent (pyStrip content).toList with
  | some c => (jsonLoads (pyStrip (String.mk c))).isNone
  | Option.none => true

/-- The object-boundary strategy fails on this content (no candidate,
or the candidate does not parse as a JSON object). -/
def objFails (content : String) : Bool :=
  match findBalanced '{' '}' (pyStrip content).toList with
  | some sub =>
    match jsonLoads (pyStrip (String.mk sub)) with
    | some (Json.obj _) => false
    | _ => true
  | Option.none => true

/-- The array-boundary strategy fails on this content. -/
def arrFails (content : String) : Bool :=
  match findBalanced '[' ']' (pyStrip content).toList with
  | some sub => (jsonLoads (pyStrip (String.mk sub))).isNone
  | Option.none => true

/-- The stripped text itself does not parse as JSON. -/
def rawFails (content : String) : Bool :=
  (jsonLoads (pyStrip content)).isNone

/-! ## Reference segmentation for the chunking policy

A conversation shaped as user-led groups: each group is one user turn
followed by the assistant turns that immediately follow it. -/

/-- One user-led exchange. -/
structure ChunkGroup where
  user : String
  assts : List String
deriving DecidableEq, Repr

/-- The turns of one group. -/
def groupTurns (g : ChunkGroup) : List Turn :=
  ⟨"user", g.user⟩ :: g.assts.map (fun a => ⟨"assistant", a⟩)

/-- A conversation made of user-led groups. -/
def groupsToHistory (gs : List ChunkGroup) : List Turn :=
  (gs.map groupTurns).flatten

/-- Concatenate a list of strings. -/
def joinStr : List String → String
  | [] => ""
  | s :: rest => s ++ joinStr rest

/-- The chunk text accumulated by the loop for one group (before the
final `strip`). -/
def rawChunk (g : ChunkGroup) : String :=
  "User: " ++ g.user ++ "\n" ++
    joinStr (g.assts.map (fun a => "Assistant: " ++ a ++ "\n"))

/-- The chunk the specification expects for one group:
`"User: u\nAssistant: a1\nAssistant: a2..."` with no trailing newline. -/
def expectedChunk (g : ChunkGroup) : String :=
  "User: " ++ g.user ++ joinStr (g.assts.map (fun a => "\nAssistant: " ++ a))

/-! ## Concrete collaborator environments used by witnesses -/

/-- An environment whose collaborators all succeed and return empty
context / replies. -/
def stubEnv : Env :=
  { ragRetrieve := fun _ _ _ => .ok { success := true, context := "" },
    nluProcess := fun _ =>
      .ok { entities := [], events := [], emotions := [], intent := "general",
            relationships := [] },
    graphContext := fun _ _ _ => .ok { success := true, context := "" },
    generate := fun _ => .ok "Generated reply.",
    greetGenerate := fun _ => .ok "Welcome back!" }

/-- An environment whose vector-RAG retrieval raises. -/
def failEnv : Env :=
  { ragRetrieve := fun _ _ _ => .error "connection refused",
    nluProcess := fun _ => .error "nlu down",
    graphContext := fun _ _ _ => .error "graph down",
    generate := fun _ => .error "llm down",
    greetGenerate := fun _ => .error "llm down" }

/-! ## Helper lemmas -/

/-- `takeLast` returns a suffix. -/
theorem takeLast_suffix (n : Nat) (l : List α) : takeLast n l <:+ l :=
  List.drop_suffix _ _

/-- Length of `takeLast`. -/
theorem takeLast_length (n : Nat) (l : List α) :
    (takeLast n l).length = min n l.length := by
  simp [takeLast, List.length_drop]
  omega

/-- `takeLast` is idempotent. -/
theorem takeLast_takeLast (n : Nat) (l : List α) :
    takeLast n (takeLast n l) = takeLast n l := by
  unfold takeLast
  rw [List.length_drop]
  rw [show l.length - (l.length - n) - n = 0 by omega, List.drop_zero]

/-! ## C9 — cold graph returns success with empty context -/

/-- **C9.** For every user with no `Entry` nodes in the graph,
`get_user_graph_context` returns `{success: true, context: "",
entries: []}` (with no `error` and no `entity_count` key) rather than
an error. -/
theorem getUserGraphContext_cold_graph :
    ∀ (db : GraphDB) (userId query : String) (limit : Nat),
      (db.entryNodes.filter (fun e => e.userId == userId)).length = 0 →
      getUserGraphContext db userId query limit =
        { success := true, context := "", entries := [],
          error := Option.none, entityCount := Option.none } := by
  intro db userId query limit h
  simp [getUserGraphContext, h]

/-- Witness for C9: a database holding an entry of another user is a
cold graph for user `u1`. -/
theorem getUserGraphContext_cold_graph_witness :
    getUserGraphContext
        { entryNodes := [{ id := "e1", userId := "other", summary := "s",
                           timestamp := 1, tsText := "2024-01-01" }],
          entityNodes := [("Person", "ann")], mentions := [("e1", "ann")],
          feels := [], relates := [] } "u1" "ann" 5 =
      { success := true, context := "", entries := [],
        error := Option.none, entityCount := Option.none } :=
  getUserGraphContext_cold_graph _ "u1" "ann" 5 (by decide)

/-! ## C8 — the reconnect-and-retry wrapper can retry more than once -/

/-- **C8** (code evaluated at the failing input).  When the original
attempt and its retry both raise connection errors and reconnection
succeeds each time, `insert_entities_and_relationships` retries twice
— contradicting the at-most-one-retry contract (and the code's own
`Retry once after reconnection` comment) — and when the single allowed
retry fails with a non-connection error the caller still receives a
structured `success: false` dictionary rather than an exception. -/
theorem insertEAR_retry_bug :
    insertRetryCount
        [RunAttempt.raise "defunct connection" true,
         RunAttempt.raise "defunct connection" true,
         RunAttempt.ok { success := true, error := Option.none }] = 2
    ∧ insertEAR
        [RunAttempt.raise "defunct connection" true,
         RunAttempt.raise "defunct connection" true,
         RunAttempt.ok { success := true, error := Option.none }] =
      { success := true, error := Option.none }
    ∧ insertEAR
        [RunAttempt.raise "defunct connection" true,
         RunAttempt.raise "boom" false] =
      { success := false, error := some "boom" } := by
  refine ⟨by decide, by decide, by decide⟩

/-! ## C3 — stored emotion intensity is always an integer in [1,5] -/

/-- **C3.** Every emotion write of the graph transaction stores an
intensity in `[1,5]`; a missing or non-numeric intensity value is
stored as 3, and a numeric value is clamped into `[1,5]`. -/
theorem storedIntensity_spec :
    (∀ v : Option PyVal, 1 ≤ storedIntensity v ∧ storedIntensity v ≤ 5)
    ∧ storedIntensity Option.none = 3
    ∧ (∀ x : PyVal, pyIntOf x = Option.none → storedIntensity (some x) = 3)
    ∧ (∀ (x : PyVal) (n : Int), pyIntOf x = some n →
        storedIntensity (some x) = max 1 (min 5 n))
    ∧ (∀ emotions : List EmotionIn, ∀ op ∈ emotionOpsOf emotions,
        (1 ≤ op.intensity ∧ op.intensity ≤ 5) ∧
        ∃ e ∈ emotions, op.intensity = storedIntensity e.intensity) := by
  have hbounds : ∀ v : Option PyVal, 1 ≤ storedIntensity v ∧ storedIntensity v ≤ 5 := by
    intro v
    unfold storedIntensity
    cases h : pyIntOf (v.getD (.int 3)) with
    | none => simp
    | some n => simp
  refine ⟨hbounds, by decide, ?_, ?_, ?_⟩
  · intro x h
    unfold storedIntensity
    simp [h]
  · intro x n h
    unfold storedIntensity
    simp [h]
  · intro emotions op hop
    have hmem : ∃ e ∈ emotions, op.intensity = storedIntensity e.intensity := by
      unfold emotionOpsOf at hop
      rw [List.mem_filterMap] at hop
      obtain ⟨e, he, hf⟩ := hop
      refine ⟨e, he, ?_⟩
      by_cases hs : pyStrip (e.etype.getD "") = ""
      · simp [hs] at hf
      · simp [hs] at hf
        rw [← hf]
    refine ⟨?_, hmem⟩
    obtain ⟨e, _, hi⟩ := hmem
    rw [hi]
    exact hbounds e.intensity

/-- Witness for C3: concrete intensities — 7 clamps to 5, a
non-numeric string and `None` default to 3, and the transaction's
emotion write for intensity 9 stores 5. -/
theorem storedIntensity_spec_witness :
    (1 ≤ storedIntensity (some (.int 7)) ∧ storedIntensity (some (.int 7)) ≤ 5)
    ∧ storedIntensity (some (.str "not a number")) = 3
    ∧ storedIntensity (some .none) = 3
    ∧ storedIntensity (some (.int 7)) = max 1 (min 5 7)
    ∧ (1 ≤ (EmotionOp.intensity ⟨"joy", "Joy", "neutral", 5⟩) ∧
        (EmotionOp.intensity ⟨"joy", "Joy", "neutral", 5⟩) ≤ 5) :=
  ⟨storedIntensity_spec.1 (some (.int 7)),
   storedIntensity_spec.2.2.1 (.str "not a number") (by decide),
   storedIntensity_spec.2.2.1 .none (by decide),
   storedIntensity_spec.2.2.2.1 (.int 7) 7 (by decide),
   (storedIntensity_spec.2.2.2.2
      [{ etype := some "Joy", valence := Option.none, intensity := some (.int 9) }]
      ⟨"joy", "Joy", "neutral", 5⟩ (by decide)).1⟩

/-! ## C5 — prompt history capped at 10 turns, session history at 20 -/

/-- **C5.** The message list passed to the generation call is the
system message, then exactly the last 10 history turns (a suffix — the
oldest turns are dropped), then the current user message; the `chat`
route keeps the persisted session history at 20 turns or fewer,
truncating to exactly the last 20 once it grows beyond 20; in
particular a 25-turn history is retained as 20 turns and prompt
construction uses only its last 10. -/
theorem history_truncation_spec :
    ∀ (sys input : String) (hist : List Msg) (rag graph : String)
      (nlu : NluResult) (ip : String) (userMsg aiResp : String),
      buildMessages sys input hist rag graph nlu ip =
        ⟨"system", buildEnhancedPrompt sys rag graph ip nlu.emotions⟩ ::
          (takeLast 10 hist ++ [⟨"user", input⟩])
      ∧ (takeLast 10 hist).length = min 10 hist.length
      ∧ takeLast 10 hist <:+ hist
      ∧ buildMessages sys input hist rag graph nlu ip =
          buildMessages sys input (takeLast 10 hist) rag graph nlu ip
      ∧ (chatUpdateHistory hist userMsg aiResp).length ≤ 20
      ∧ (20 < hist.length + 2 →
          chatUpdateHistory hist userMsg aiResp =
            takeLast 20 (hist ++ [⟨"user", userMsg⟩, ⟨"assistant", aiResp⟩]) ∧
          (chatUpdateHistory hist userMsg aiResp).length = 20)
      ∧ (hist.length = 25 →
          (chatUpdateHistory hist userMsg aiResp).length = 20 ∧
          takeLast 10 hist = hist.drop 15) := by
  intro sys input hist rag graph nlu ip userMsg aiResp
  have hx : chatUpdateHistory hist userMsg aiResp =
      (if (hist ++ ([⟨"user", userMsg⟩, ⟨"assistant", aiResp⟩] : List Msg)).length > 20
       then takeLast 20 (hist ++ ([⟨"user", userMsg⟩, ⟨"assistant", aiResp⟩] : List Msg))
       else hist ++ ([⟨"user", userMsg⟩, ⟨"assistant", aiResp⟩] : List Msg)) := rfl
  have hlen : (hist ++ [(⟨"user", userMsg⟩ : Msg), ⟨"assistant", aiResp⟩]).length =
      hist.length + 2 := by simp
  refine ⟨rfl, takeLast_length 10 hist, takeLast_suffix 10 hist, ?_, ?_, ?_, ?_⟩
  · simp [buildMessages, takeLast_takeLast]
  · rw [hx]
    split
    · rw [takeLast_length]
      omega
    · rename_i hgt
      omega
  · intro h
    rw [hx, if_pos (by omega)]
    refine ⟨rfl, ?_⟩
    rw [takeLast_length]
    omega
  · intro h
    constructor
    · rw [hx, if_pos (by omega), takeLast_length]
      omega
    · unfold takeLast
      rw [h]

/-- Witness for C5: a 25-turn history is retained as exactly 20 turns
and the prompt uses only the last 10. -/
theorem history_truncation_spec_witness :
    (chatUpdateHistory (List.replicate 25 ⟨"user", "x"⟩) "u" "a").length = 20
    ∧ takeLast 10 (List.replicate 25 (⟨"user", "x"⟩ : Msg)) =
        (List.replicate 25 (⟨"user", "x"⟩ : Msg)).drop 15 :=
  (history_truncation_spec "s" "i" (List.replicate 25 ⟨"user", "x"⟩) "" ""
      { entities := [], events := [], emotions := [], intent := "general",
        relationships := [] } "p" "u" "a").2.2.2.2.2.2 (by simp)

/-- `Except` bind on a success reduces to the continuation. -/
theorem exceptBind_ok (x : α) (f : α → Except ε β) :
    (Except.ok x >>= f) = f x := rfl

/-! ## C10 — the greeting check is substring containment, not token
equality -/

/-- **C10.** The greeting check tests substring containment of the
nine fixed patterns in the whole lowercased stripped message: every
message of at most 3 tokens containing a pattern anywhere (for example
`"I like this"`, whose word `this` contains `hi`) is a greeting, every
message of 4 or more tokens is not, and a greeting message sends
`process_message` into the greeting shortcut. -/
theorem isGreeting_substring_semantics :
    (∀ text : String,
      (pySplit (pyStrip (pyLower text))).length ≤ 3 →
      (∃ p ∈ greetingPatterns, pyContains (pyStrip (pyLower text)) p = true) →
      isGreeting text = true)
    ∧ (∀ text : String, 3 < (pySplit (pyStrip (pyLower text))).length →
        isGreeting text = false)
    ∧ isGreeting "I like this" = true
    ∧ (∀ (env : Env) (sys text : String) (hist : List Msg) (uid : String),
        isGreeting text = true →
        processMessageE env sys text hist uid = greetingBranch env uid text) := by
  refine ⟨?_, ?_, by decide, ?_⟩
  · intro text hlen hex
    obtain ⟨p, hp, hc⟩ := hex
    simp only [isGreeting]
    rw [if_pos hlen, List.any_eq_true]
    exact ⟨p, hp, hc⟩
  · intro text h
    simp only [isGreeting]
    rw [if_neg (by omega)]
  · intro env sys text hist uid h
    simp [processMessageE, h]

/-- Witness for C10: `"I like this"` (3 tokens, `hi` inside `this`) and
`"hey friends"` are greetings, a 4-token message is not, and `"Hi"`
sends the pipeline into the greeting branch. -/
theorem isGreeting_substring_semantics_witness :
    isGreeting "I like this" = true
    ∧ isGreeting "hey friends" = true
    ∧ isGreeting "one two three four" = false
    ∧ processMessageE stubEnv "s" "Hi" [] "u" = greetingBranch stubEnv "u" "Hi" :=
  ⟨isGreeting_substring_semantics.2.2.1,
   isGreeting_substring_semantics.1 "hey friends" (by decide)
     ⟨"hey", by decide, by decide⟩,
   isGreeting_substring_semantics.2.1 "one two three four" (by decide),
   isGreeting_substring_semantics.2.2.2 stubEnv "s" "Hi" [] "u" (by decide)⟩

/-! ## C1 — any pipeline exception becomes the canned failure result -/

/-- **C1.** If any exception is raised inside `process_message`'s
body, the call does not propagate it: it returns a dictionary with
`success: false` and the fixed canned apology as `response` (the
exception text goes only into the `error` field); and in general the
returned `response` is either the pipeline's own reply or that canned
apology. -/
theorem processMessage_catches_exceptions :
    (∀ (env : Env) (sys input : String) (hist : List Msg) (uid e : String),
      processMessageE env sys input hist uid = .error e →
      processMessage env sys input hist uid =
        { success := false, response := cannedApology, nluMetadata := .absent,
          intent := Option.none, ragContextUsed := Option.none,
          graphContextUsed := Option.none, error := some e })
    ∧ (∀ (env : Env) (sys input : String) (hist : List Msg) (uid : String),
        (processMessage env sys input hist uid).response = cannedApology ∨
        ∃ r, processMessageE env sys input hist uid = .ok r ∧
          processMessage env sys input hist uid = r) := by
  constructor
  · intro env sys input hist uid e h
    unfold processMessage
    rw [h]
    rfl
  · intro env sys input hist uid
    unfold processMessage
    cases h : processMessageE env sys input hist uid with
    | ok r => exact Or.inr ⟨r, rfl, rfl⟩
    | error e => exact Or.inl rfl

/-- Witness for C1: with a vector store whose retrieval raises
`"connection refused"`, a non-greeting message yields the canned
failure dictionary. -/
theorem processMessage_catches_exceptions_witness :
    processMessage failEnv "sys" "tell me about work" [] "u1" =
      { success := false, response := cannedApology, nluMetadata := .absent,
        intent := Option.none, ragContextUsed := Option.none,
        graphContextUsed := Option.none, error := some "connection refused" } :=
  processMessage_catches_exceptions.1 failEnv "sys" "tell me about work" [] "u1"
    "connection refused" rfl

/-! ## C2 — the greeting shortcut -/

/-- **C2.** On a greeting message the pipeline takes the shortcut: the
result depends only on the RAG retrieval and the greeting-generation
oracles (no extraction, no intent classification, no graph lookup);
when the shortcut completes, the result has `success: true`, empty
`nlu_metadata`, intent `"greeting"` and `graph_context_used: false`;
and when the retrieved context is empty the response is exactly the
fixed default welcome string. -/
theorem greeting_shortcut_spec :
    ∀ (env : Env) (sys input : String) (hist : List Msg) (uid : String),
      isGreeting input = true →
      (∀ env₂ : Env, env₂.ragRetrieve = env.ragRetrieve →
          env₂.greetGenerate = env.greetGenerate →
          processMessage env₂ sys input hist uid =
            processMessage env sys input hist uid)
      ∧ (∀ rag : RagResult, env.ragRetrieve uid input 3 = .ok rag →
          (∀ resp, generateGreetingResponse env rag.context = .ok resp →
            processMessage env sys input hist uid =
              { success := true, response := resp, nluMetadata := .emptyDict,
                intent := some "greeting",
                ragContextUsed := some (rag.context != ""),
                graphContextUsed := some false, error := Option.none })
          ∧ (rag.context = "" →
            processMessage env sys input hist uid =
              { success := true, response := defaultWelcome,
                nluMetadata := .emptyDict, intent := some "greeting",
                ragContextUsed := some false, graphContextUsed := some false,
                error := Option.none })) := by
  intro env sys input hist uid hg
  constructor
  · intro env₂ h1 h2
    have hbranch : processMessageE env₂ sys input hist uid =
        processMessageE env sys input hist uid := by
      unfold processMessageE
      rw [hg]
      simp [greetingBranch, generateGreetingResponse, h1, h2]
    unfold processMessage
    rw [hbranch]
  · intro rag hrag
    constructor
    · intro resp hresp
      unfold processMessage processMessageE greetingBranch
      rw [hg, if_pos rfl, hrag, exceptBind_ok]
      simp only [hresp, exceptBind_ok]
      rfl
    · intro hempty
      unfold processMessage processMessageE greetingBranch
      rw [hg, if_pos rfl, hrag, exceptBind_ok, hempty]
      rfl

/-- Witness for C2: the input `"Hi"` against collaborators that return
empty context yields the fixed default welcome with `success: true`,
empty metadata, intent `"greeting"`, and no graph context. -/
theorem greeting_shortcut_spec_witness :
    processMessage stubEnv "sys" "Hi" [] "u1" =
      { success := true, response := defaultWelcome, nluMetadata := .emptyDict,
        intent := some "greeting", ragContextUsed := some false,
        graphContextUsed := some false, error := Option.none } :=
  ((greeting_shortcut_spec stubEnv "sys" "Hi" [] "u1" (by decide)).2
    { success := true, context := "" } rfl).2 rfl

/-- Dropping the elements on which `f` fails does not change a
`filterMap`. -/
theorem filterMap_filter_isSome (f : α → Option β) (l : List α) :
    (l.filter (fun r => (f r).isSome)).filterMap f = l.filterMap f := by
  induction l with
  | nil => rfl
  | cons a t ih =>
    by_cases h : (f a).isSome
    · obtain ⟨b, hb⟩ := Option.isSome_iff_exists.mp h
      simp [List.filter_cons, List.filterMap_cons, h, hb, ih]
    · have hnone : f a = Option.none := Option.not_isSome_iff_eq_none.mp h
      simp [List.filter_cons, List.filterMap_cons, h, hnone, ih]

/-! ## C4 — unresolved relationships are skipped; base writes succeed -/

/-- **C4.** Relationships whose endpoints cannot be resolved to typed
labels are skipped silently: the transaction behaves exactly as if they
were absent (its whole effect equals the effect on the resolvable
sublist), it still returns `success`, the entity and emotion writes are
unaffected by the relationships list, and every created `RELATES_TO`
edge comes from a relationship whose two endpoints resolved. -/
theorem insertGraphTx_skips_unresolved :
    ∀ (entities : List EntityIn) (rels : List RelIn) (emotions : List EmotionIn)
      (events : List EventIn) (pre : List (String × String)),
      insertGraphTx entities rels emotions events pre =
        insertGraphTx entities
          (rels.filter (fun r => (resolveRel entities r).isSome)) emotions events pre
      ∧ (insertGraphTx entities rels emotions events pre).success = true
      ∧ (insertGraphTx entities rels emotions events pre).entityOps =
          (insertGraphTx entities [] emotions events pre).entityOps
      ∧ (insertGraphTx entities rels emotions events pre).emotionOps =
          (insertGraphTx entities [] emotions events pre).emotionOps
      ∧ (∀ op ∈ (insertGraphTx entities rels emotions events pre).createdRels,
          ∃ r ∈ rels, resolveRel entities r = some op) := by
  intro entities rels emotions events pre
  refine ⟨?_, rfl, rfl, rfl, ?_⟩
  · unfold insertGraphTx
    rw [filterMap_filter_isSome]
  · intro op hop
    simp only [insertGraphTx] at hop
    rw [List.mem_filter] at hop
    rw [List.mem_filterMap] at hop
    obtain ⟨⟨r, hr, heq⟩, _⟩ := hop
    exact ⟨r, hr, heq⟩

/-- Witness for C4: a relationship between `Ann` and `Bob` with no type
fields and no matching entities is dropped — the transaction equals the
one without it and still succeeds — while a fully resolved
`Ann works at Acme` relationship yields a created edge traceable to its
input. -/
theorem insertGraphTx_skips_unresolved_witness :
    insertGraphTx []
        [{ fromName := some "Ann", source := Option.none, toName := some "Bob",
           target := Option.none, rtype := some "knows",
           fromType := Option.none, toType := Option.none }]
        [{ etype := some "joy", valence := Option.none, intensity := Option.none }]
        [] [] =
      insertGraphTx [] []
        [{ etype := some "joy", valence := Option.none, intensity := Option.none }]
        [] []
    ∧ (insertGraphTx []
        [{ fromName := some "Ann", source := Option.none, toName := some "Bob",
           target := Option.none, rtype := some "knows",
           fromType := Option.none, toType := Option.none }]
        [{ etype := some "joy", valence := Option.none, intensity := Option.none }]
        [] []).success = true
    ∧ (∃ r : RelIn,
        r ∈ [({ fromName := some "Ann", source := Option.none, toName := some "Acme",
                target := Option.none, rtype := some "works at",
                fromType := some "person", toType := some "organization" } : RelIn)] ∧
        resolveRel
            [{ etype := some "PERSON", name := some "Ann" },
             { etype := some "ORG", name := some "Acme" }] r =
          some { fromLabel := "Person", fromLower := "ann", toLabel := "Organization",
                 toLower := "acme", rtype := "works at" }) := by
  have h := insertGraphTx_skips_unresolved []
    [{ fromName := some "Ann", source := Option.none, toName := some "Bob",
       target := Option.none, rtype := some "knows",
       fromType := Option.none, toType := Option.none }]
    [{ etype := some "joy", valence := Option.none, intensity := Option.none }]
    [] []
  have h₂ := insertGraphTx_skips_unresolved
    [{ etype := some "PERSON", name := some "Ann" },
     { etype := some "ORG", name := some "Acme" }]
    [{ fromName := some "Ann", source := Option.none, toName := some "Acme",
       target := Option.none, rtype := some "works at",
       fromType := some "person", toType := some "organization" }]
    [] [] []
  refine ⟨by rw [h.1]; rfl, h.2.1, ?_⟩
  obtain ⟨r, hr, hres⟩ := h₂.2.2.2.2
    { fromLabel := "Person", fromLower := "ann", toLabel := "Organization",
      toLower := "acme", rtype := "works at" } (by decide)
  exact ⟨r, hr, hres⟩

/-! ## C6 — the chunking policy -/

/-- A run of assistant turns appends its labelled lines to the current
chunk. -/
theorem chunkLoop_assts (as : List String) (cur : String) (rest : List Turn) :
    chunkLoop ((as.map (fun a => (⟨"assistant", a⟩ : Turn))) ++ rest) cur =
      chunkLoop rest (cur ++ joinStr (as.map (fun a => "Assistant: " ++ a ++ "\n"))) := by
  induction as generalizing cur with
  | nil => simp [joinStr]
  | cons a t ih =>
    simp only [List.map_cons, List.cons_append, chunkLoop]
    rw [if_neg (by decide), if_pos (by decide)]
    refine (ih (cur ++ ("Assistant: " ++ a ++ "\n"))).trans ?_
    rw [String.append_assoc]
    rfl

/-- The accumulated chunk of a group is never the empty string. -/
theorem rawChunk_ne_empty (g : ChunkGroup) : rawChunk g ≠ "" := by
  intro h
  have hl := congrArg String.length h
  simp [rawChunk, String.length_append] at hl
  exact absurd hl.1.1.1 (by decide)

/-- The expected chunk of a group is never the empty string. -/
theorem expectedChunk_ne_empty (g : ChunkGroup) : expectedChunk g ≠ "" := by
  intro h
  have hl := congrArg String.length h
  simp [expectedChunk, String.length_append] at hl
  exact absurd hl.1.1 (by decide)

/-- The chunking loop on a group-structured conversation: the pending
chunk (if any) and all groups except the last are emitted (stripped),
and the last group's text stays pending. -/
theorem chunkLoop_groups :
    ∀ (gs : List ChunkGroup) (g : ChunkGroup) (cur : String),
      chunkLoop (groupsToHistory (g :: gs)) cur =
        ((if cur == "" then [] else [pyStrip cur]) ++
          ((g :: gs).dropLast).map (fun x => pyStrip (rawChunk x)),
         rawChunk ((g :: gs).getLast (List.cons_ne_nil g gs))) := by
  intro gs
  induction gs with
  | nil =>
    intro g cur
    have hexp : groupsToHistory [g] =
        (⟨"user", g.user⟩ : Turn) ::
          (g.assts.map (fun a => (⟨"assistant", a⟩ : Turn)) ++ []) := rfl
    rw [hexp]
    simp only [chunkLoop]
    rw [if_pos (by decide)]
    rw [chunkLoop_assts g.assts ("User: " ++ g.user ++ "\n") []]
    rfl
  | cons g' gs' ih =>
    intro g cur
    have hexp : groupsToHistory (g :: g' :: gs') =
        (⟨"user", g.user⟩ : Turn) ::
          (g.assts.map (fun a => (⟨"assistant", a⟩ : Turn)) ++
            groupsToHistory (g' :: gs')) := rfl
    rw [hexp]
    simp only [chunkLoop]
    rw [if_pos (by decide)]
    rw [chunkLoop_assts g.assts ("User: " ++ g.user ++ "\n") (groupsToHistory (g' :: gs'))]
    have hraw : "User: " ++ g.user ++ "\n" ++
        joinStr (g.assts.map (fun a => "Assistant: " ++ a ++ "\n")) = rawChunk g := rfl
    rw [hraw, ih g' (rawChunk g)]
    have hne : (rawChunk g == "") = false := beq_eq_false_iff_ne.mpr (rawChunk_ne_empty g)
    rw [hne, if_neg (show ¬(false = true) by decide)]
    rw [show (g :: g' :: gs').dropLast = g :: (g' :: gs').dropLast from rfl]
    rw [List.getLast_cons (List.cons_ne_nil g' gs')]
    rfl

/-- **C6.** `chunk_conversation` segments at each user turn: on a
conversation of user-led groups whose chunks are stable under
stripping, it returns exactly one `"User: ...\nAssistant: ..."` chunk
per group; when turn-based segmentation yields no chunks, it returns
one chunk holding the whole conversation with title-cased role labels;
and the conversation `[user A, assistant B, user C, assistant D]`
yields exactly the two chunks `"User: A\nAssistant: B"` and
`"User: C\nAssistant: D"`. -/
theorem chunkConversation_spec :
    (∀ gs : List ChunkGroup, gs ≠ [] →
      (∀ g ∈ gs, pyStrip (rawChunk g) = expectedChunk g) →
      chunkConversation (groupsToHistory gs) = gs.map expectedChunk)
    ∧ (∀ history : List Turn, turnChunks history = [] →
        chunkConversation history = [fallbackChunk history])
    ∧ chunkConversation
        [⟨"user", "A"⟩, ⟨"assistant", "B"⟩, ⟨"user", "C"⟩, ⟨"assistant", "D"⟩] =
        ["User: A\nAssistant: B", "User: C\nAssistant: D"] := by
  refine ⟨?_, ?_, by decide⟩
  · intro gs hne hstrip
    obtain ⟨g, gs', rfl⟩ := List.exists_cons_of_ne_nil hne
    have hlast : pyStrip (rawChunk ((g :: gs').getLast (List.cons_ne_nil g gs'))) =
        expectedChunk ((g :: gs').getLast (List.cons_ne_nil g gs')) :=
      hstrip _ (List.getLast_mem _)
    have hchunks : turnChunks (groupsToHistory (g :: gs')) =
        ((g :: gs').dropLast).map (fun x => pyStrip (rawChunk x)) ++
          [expectedChunk ((g :: gs').getLast (List.cons_ne_nil g gs'))] := by
      unfold turnChunks
      rw [chunkLoop_groups gs' g ""]
      dsimp only
      rw [if_pos (show (("" : String) == "") = true from rfl)]
      rw [List.nil_append]
      rw [hlast]
      rw [beq_eq_false_iff_ne.mpr
        (expectedChunk_ne_empty ((g :: gs').getLast (List.cons_ne_nil g gs')))]
      rw [if_neg (show ¬(false = true) by decide)]
    have hmap : ((g :: gs').dropLast).map (fun x => pyStrip (rawChunk x)) =
        ((g :: gs').dropLast).map expectedChunk :=
      List.map_congr_left (fun x hx => hstrip x (List.dropLast_subset _ hx))
    have hjoin : ((g :: gs').dropLast).map expectedChunk ++
        [expectedChunk ((g :: gs').getLast (List.cons_ne_nil g gs'))] =
        (g :: gs').map expectedChunk := by
      have h0 := congrArg (List.map expectedChunk)
        (List.dropLast_append_getLast (List.cons_ne_nil g gs'))
      rw [List.map_append] at h0
      simpa using h0
    unfold chunkConversation
    rw [hchunks, hmap, hjoin]
    rw [if_neg (by simp)]
  · intro history h
    simp only [chunkConversation, h]
    rfl

/-- Witness for C6: the two-group conversation
`[user A, assistant B, user C, assistant D]` produces its two expected
chunks, and a conversation with no user/assistant turns falls back to
one whole-conversation chunk. -/
theorem chunkConversation_spec_witness :
    chunkConversation (groupsToHistory [⟨"A", ["B"]⟩, ⟨"C", ["D"]⟩]) =
      ["User: A\nAssistant: B", "User: C\nAssistant: D"]
    ∧ chunkConversation [(⟨"system", "x"⟩ : Turn)] =
        [fallbackChunk [⟨"system", "x"⟩]] := by
  constructor
  · rw [chunkConversation_spec.1 [⟨"A", ["B"]⟩, ⟨"C", ["D"]⟩] (by decide) (by decide)]
    rfl
  · exact chunkConversation_spec.2.1 [⟨"system", "x"⟩] (by decide)

/-! ## C7 — extraction never raises; all parse strategies failing
yields the all-empty structure -/

/-- If the fenced-block strategy fails, `fenceTryOf` yields nothing. -/
theorem fenceFails_try_none (t : String) (h : fenceFails t = true) :
    fenceTryOf (pyStrip t) = Option.none := by
  unfold fenceTryOf
  cases hF : fenceContent (pyStrip t).toList with
  | none => rfl
  | some c =>
    simp only [fenceFails, hF] at h
    simp [Option.isNone_iff_eq_none.mp h]

/-- If the object-boundary strategy fails, `objTryOf` yields nothing. -/
theorem objFails_try_none (t : String) (h : objFails t = true) :
    objTryOf (pyStrip t) = Option.none := by
  unfold objTryOf
  cases hO : findBalanced '{' '}' (pyStrip t).toList with
  | none => rfl
  | some sub =>
    simp only [objFails, hO] at h
    cases hj : jsonLoads (pyStrip (String.mk sub)) with
    | none => simp [hj]
    | some j =>
      rw [hj] at h
      cases j <;> simp_all

/-- If the array-boundary strategy fails, `arrTryOf` yields nothing. -/
theorem arrFails_try_none (t : String) (h : arrFails t = true) :
    arrTryOf (pyStrip t) = Option.none := by
  unfold arrTryOf
  cases hA : findBalanced '[' ']' (pyStrip t).toList with
  | none => rfl
  | some sub =>
    simp only [arrFails, hA] at h
    simp [Option.isNone_iff_eq_none.mp h]

/-- **C7.** Structured extraction never raises past its boundary: the
response handler is a total function that tries the code-fence,
object-boundary and array-boundary strategies in turn, and whenever
every strategy fails and the stripped text itself is not JSON, it
returns the all-empty structure. -/
theorem extraction_failure_spec :
    ∀ responseText : String,
      fenceFails responseText = true →
      objFails responseText = true →
      arrFails responseText = true →
      rawFails responseText = true →
      extractGraphEntitiesFromResponse responseText = emptyGraphData := by
  intro t h1 h2 h3 h4
  have hf := fenceFails_try_none t h1
  have ho := objFails_try_none t h2
  have ha := arrFails_try_none t h3
  have hraw : jsonLoads (pyStrip t) = Option.none := by
    simpa [rawFails, Option.isNone_iff_eq_none] using h4
  simp [extractGraphEntitiesFromResponse, extractJsonFromResponse, hf, ho, ha, hraw]

/-- Witness for C7: a plain prose reply with no fences, no brackets and
no JSON drives the handler to the all-empty structure. -/
theorem extraction_failure_spec_witness :
    fenceFails "The user seems anxious today." = true
    ∧ objFails "The user seems anxious today." = true
    ∧ arrFails "The user seems anxious today." = true
    ∧ rawFails "The user seems anxious today." = true
    ∧ extractGraphEntitiesFromResponse "The user seems anxious today." =
        emptyGraphData :=
  ⟨by decide, by decide, by decide, by decide,
   extraction_failure_spec "The user seems anxious today."
     (by decide) (by decide) (by decide) (by decide)⟩

end Goldfish
